import Mathlib

/-!
Verification of the session-lifecycle coordinator and resource-descriptor
builder of `make-app-container.py` (github.com/rogerbinns/make-app-container).

The embedding is shallow: the Python functions of the control code are
translated into executable Lean definitions over explicit state records, and
the claims of the specification are settled as theorems about those
definitions.  External effects (filesystem probes, subprocess invocations,
environment variables) are passed in as explicit inputs; fallible Python code
(`sys.exit`, `assert`, uncaught exceptions) is modelled with `Except`.
-/

namespace MakeAppContainer

/-- The per-container configuration dictionary written by `genscript` and
consumed by the control code (`config = {...}` in the generated script). -/
structure ContainerConfig where
  folder : String
  name : String
  gui : Bool
  guiPrivate : Bool
  guiPrivateStart : List String
  guiPrivateWindowManager : String
  sound : Bool
  mesa : Bool
  dbus : Bool
  network : String
  bind : List String
  run : Option String
  user : String
  webcam : Bool
  nspawnExtraArgs : List String
deriving Repr, DecidableEq

/-- One entry of the module-level `BINDS` table: a description, a target
path, and whether the bind is read-only (the Python dict uses the key
`folder-ro` instead of `folder` for read-only entries). -/
structure BindEntry where
  description : String
  folder : String
  ro : Bool
deriving Repr, DecidableEq

/-- The module-level `BINDS` catalog of named bind mounts. -/
def BINDS : List (String × BindEntry) :=
  [ ("downloads", ⟨"Downloads folder", "~/Downloads", false⟩),
    ("cache", ⟨"~/.cache", "~/.cache", false⟩),
    ("steam", ⟨"steam library", "~/.local/share/Steam", false⟩),
    ("gitconfig", ⟨"git config", "~/.gitconfig", true⟩),
    ("documents", ⟨"documents", "~/Documents", false⟩),
    ("inputs",
      ⟨"input devices direct access (keyboards, mice, joysticks etc)",
        "/dev/input", false⟩) ]

/-- `expanduser`: replace `~` with `/home/<container user>` (resolution is
against the container user's home, never the invoking user's). -/
def expanduser (config : ContainerConfig) (path : String) : String :=
  path.replace "~" ("/home/" ++ config.user)

/-! ## Argument parsing (`parse_args`)

The control code scans `++`-prefixed control tokens ahead of the passthrough
command.  `++network` consumes a following value and mutates
`config["network"]`; any unrecognised token stops the scan and the rest is
the inner command. -/

/-- The `res` dictionary built by `parse_args`, plus the local
`override_cmd` flag. -/
structure ParsedArgs where
  only : Option String
  aptupdate : Bool
  aptupdateall : Bool
  showCmds : Bool
  cmd : List String
  overrideCmd : Bool
deriving Repr, DecidableEq

/-- Initial `res` of `parse_args`. -/
def ParsedArgs.init : ParsedArgs :=
  { only := none, aptupdate := false, aptupdateall := false, showCmds := false,
    cmd := [], overrideCmd := false }

/-- The `while args:` token-scanning loop of `parse_args`.  Returns the
possibly-updated config (`++network` writes into it), the flags collected so
far, and the remaining (unconsumed) arguments.  `sys.exit` on a malformed
`++network` is an `Except.error`. -/
def parseLoop (config : ContainerConfig) (res : ParsedArgs) :
    List String → Except String (ContainerConfig × ParsedArgs × List String)
  | [] => .ok (config, res, [])
  | a :: rest =>
    if a = "++aptupdate" then
      parseLoop config { res with aptupdate := true } rest
    else if a = "++aptupdateall" then
      parseLoop config { res with aptupdateall := true } rest
    else if a = "++cmd" then
      parseLoop config { res with overrideCmd := true } rest
    else if a = "++show" then
      parseLoop config { res with showCmds := true } rest
    else if a = "++start" then
      parseLoop config { res with only := some "start" } rest
    else if a = "++stop" then
      parseLoop config { res with only := some "stop" } rest
    else if a = "++network" then
      match rest with
      | [] =>
        .error "++network not understood.  Choose one of on, off, separate, nat. (No value)"
      | net :: rest2 =>
        if net = "on" ∨ net = "off" ∨ net = "separate" ∨ net = "nat" then
          parseLoop { config with network := net } res rest2
        else
          .error ("++network not understood.  Choose one of on, off, separate, nat. Unknown " ++ net)
    else
      .ok (config, res, a :: rest)

/-- `parse_args(config, args)`: run the token loop, then prepend the
configured default `run` command unless `++cmd` overrode it, and reject an
invocation that has nothing at all to do. -/
def parse_args (config : ContainerConfig) (args : List String) :
    Except String (ContainerConfig × ParsedArgs) := do
  let (config, res, remaining) ← parseLoop config ParsedArgs.init args
  let cmd :=
    if ¬ res.overrideCmd then
      match config.run with
      | some r => r :: remaining
      | none => remaining
    else remaining
  let res := { res with cmd := cmd }
  if res.only.isSome ∨ res.aptupdate ∨ res.aptupdateall ∨ res.cmd ≠ [] then
    return (config, res)
  .error "Specify a command to run inside the container"

/-! ## Script-creation option validation (`__main__`)

The `create` and `makescript` subcommands share the post-parse fixups at the
bottom of `__main__`: `args.gui = args.gui or args.gui_private`, and the
rejection of `gui-private` together with `network == "on"`. -/

/-- The option fields of the `create`/`makescript` argument namespaces that
feed the generated config. -/
structure ScriptOptions where
  folder : String
  name : String
  network : String
  gui : Bool
  guiPrivate : Bool
  guiPrivateWindowManager : String
  mesa : Bool
  sound : Bool
  webcam : Bool
  dbus : Bool
  bind : List String
  run : Option String
  user : String
deriving Repr, DecidableEq

/-- The `__main__` fixup for GUI options: `args.gui = args.gui or
args.gui_private`, then `parser.error` when `network == "on"` is combined
with `gui_private`. -/
def mainGuiFixup (opts : ScriptOptions) : Except String ScriptOptions :=
  let opts := { opts with gui := opts.gui || opts.guiPrivate }
  if opts.network = "on" ∧ opts.guiPrivate then
    .error "gui-private requires network setting other than on"
  else
    .ok opts

/-- The Xephyr command template (`XEPHYR` constant). -/
def XEPHYR : List String :=
  ["Xephyr", "-resizeable", "-title", "%%TITLE%%", "-no-host-grab",
   "-host-cursor", ":%%NUM%%"]

/-- `genscript`: the `config` dictionary written into the generated control
script, built verbatim from the options. -/
def genscriptConfig (opts : ScriptOptions) : ContainerConfig :=
  { folder := opts.folder
    name := opts.name
    gui := opts.gui
    guiPrivate := opts.guiPrivate
    guiPrivateStart := XEPHYR
    guiPrivateWindowManager := opts.guiPrivateWindowManager
    sound := opts.sound
    mesa := opts.mesa
    dbus := opts.dbus
    network := opts.network
    bind := opts.bind
    run := opts.run
    user := opts.user
    webcam := opts.webcam
    nspawnExtraArgs := [] }

/-- The `create` subcommand's own adjustment before `genscript`:
`if options.mesa: options.gui = True` (lines 120-122). -/
def createMesaFixup (opts : ScriptOptions) : ScriptOptions :=
  if opts.mesa then { opts with gui := true } else opts

/-- The config produced by the `create` path: `__main__` fixups, then the
mesa adjustment inside `create`, then `genscript`. -/
def createConfig (opts : ScriptOptions) : Except String ContainerConfig := do
  let opts ← mainGuiFixup opts
  return genscriptConfig (createMesaFixup opts)

/-- The config produced by the `makescript` path: `__main__` fixups, then
`genscript` directly (`makescript` performs no mesa adjustment). -/
def makescriptConfig (opts : ScriptOptions) : Except String ContainerConfig := do
  let opts ← mainGuiFixup opts
  return genscriptConfig opts

/-! ## DisplayBroker (`start_xephyr`, `get_xephyr_displaynum`, `stop_xephyr`)

Private displays live in `/tmp/.X11-unix`: socket `X<num>` per live display,
plus a symbolic link `mac-<name>` pointing at the chosen `X<num>`.  The
occupied display numbers (`os.path.exists(dir + "/X" + str(num))`) are
modelled as a finite set. -/

/-- The linear probe of `start_xephyr`:
`while os.path.exists(opj(dir, "X" + str(num))): num += 1`. -/
def probeFree (occupied : Finset ℕ) (num : ℕ) : ℕ :=
  if num ∈ occupied then probeFree occupied (num + 1) else num
termination_by (occupied.filter (fun m => num ≤ m)).card
decreasing_by
  rename_i h
  apply Finset.card_lt_card
  constructor
  · intro m hm
    simp only [Finset.mem_filter] at hm ⊢
    exact ⟨hm.1, Nat.le_of_succ_le hm.2⟩
  · intro hsub
    have hnum : num ∈ occupied.filter (fun m => num + 1 ≤ m) :=
      hsub (by simp [Finset.mem_filter, h])
    simp [Finset.mem_filter] at hnum

/-- The deterministic starting candidate of `start_xephyr`:
`10 + (hashlib.sha1(config["name"].encode("utf8")).digest()[-1] % 89)`.
The last SHA-1 digest byte is a pure function of the container name alone;
it is passed in here as `hashByte` (a value in 0..255).  `hashlib` is
external library code, so the digest itself is not re-implemented. -/
def xephyrStartCandidate (hashByte : ℕ) : ℕ :=
  10 + hashByte % 89

/-- The display number chosen by `start_xephyr`: the starting candidate from
the name hash, then linear probing upward over occupied numbers. -/
def start_xephyr_num (hashByte : ℕ) (occupied : Finset ℕ) : ℕ :=
  probeFree occupied (xephyrStartCandidate hashByte)

/-- The value of one decimal digit character (code points 48 to 57),
`none` for any other character. -/
def digitVal? (c : Char) : Option ℕ :=
  if 48 ≤ c.toNat ∧ c.toNat ≤ 57 then some (c.toNat - 48) else none

/-- A nonempty all-decimal-digit character list as a number (leading zeros
allowed, as Python's `int` allows them). -/
def digitsToNat? (cs : List Char) : Option ℕ :=
  cs.foldl
    (fun acc c =>
      match acc, digitVal? c with
      | some a, some d => some (10 * a + d)
      | _, _ => none)
    (if cs.isEmpty then none else some 0)

/-- Python's `int(str)` on an already-stripped string: an optional sign
followed by decimal digits, `none` (a `ValueError`) otherwise.  (Python's
further exotic forms — digit-group underscores, non-ASCII digits — cannot
occur in the symlink targets and lock files this program reads.) -/
def pyIntChars? : List Char → Option Int
  | '-' :: rest => (digitsToNat? rest).map (fun n => -(n : Int))
  | '+' :: rest => (digitsToNat? rest).map (fun n => (n : Int))
  | cs => (digitsToNat? cs).map (fun n => (n : Int))

/-- The six ASCII characters Python's `str.strip` removes. -/
def isPySpace (c : Char) : Bool :=
  c == ' ' || c == '\t' || c == '\n' || c == '\r' ||
    c == Char.ofNat 11 || c == Char.ofNat 12

/-- Python's `str.strip()`: drop whitespace from both ends. -/
def pyStrip (s : String) : String :=
  ⟨((s.data.dropWhile isPySpace).reverse.dropWhile isPySpace).reverse⟩

/-- Filesystem and process state relevant to the Xephyr teardown for one
container name: the `mac-<name>` symbolic link's raw target if the link
exists, the raw text content of each `/tmp/.X<num>-lock` pid file that
exists, and which process ids currently exist on the host (consulted by
`os.kill`). -/
structure XephyrState where
  link : Option String
  pidfile : ℕ → Option String
  alive : Int → Bool

/-- `get_xephyr_displaynum`: read the `mac-<name>` link.  The `try` block
covers only `os.readlink` and the `assert link.startswith("X")` — a missing
link or a target without the `X` prefix is swallowed and reported as `-1`.
The final `return int(link[1:])` sits *outside* the `try`, so a target
whose remainder does not parse as an integer raises an uncaught
`ValueError`.  (Matching the leading `X` and taking the remainder models
`link.startswith("X")` plus `link[1:]`.) -/
def get_xephyr_displaynum (st : XephyrState) : Except String Int :=
  match st.link with
  | none => .ok (-1)
  | some target =>
    match target.data with
    | 'X' :: rest =>
      match pyIntChars? rest with
      | some n => .ok n
      | none => .error "ValueError: invalid literal for int"
    | _ => .ok (-1)

/-- The result of one `stop_xephyr` call: the filesystem state afterwards
and the pid that was sent SIGTERM, if any. -/
structure StopXephyrResult where
  state : XephyrState
  killed : Option Int

/-- `stop_xephyr`: resolve the current allocation (a `ValueError` there
propagates before anything is removed), remove the symbolic link (errors
ignored), return when there was no allocation (`num < 0`) or the pid file is
absent (only `FileNotFoundError` is caught), otherwise parse the pid file
content (an unparsable content raises an uncaught `ValueError`),
`assert pid > 0`, and send SIGTERM — `os.kill` raises an uncaught
`ProcessLookupError` when the recorded process no longer exists.  (The pid
file text is stripped before parsing, hence `pyStrip`.) -/
def stop_xephyr (st : XephyrState) : Except String StopXephyrResult :=
  match get_xephyr_displaynum st with
  | .error e => .error e
  | .ok num =>
    let st' : XephyrState := { st with link := none }
    if num < 0 then .ok ⟨st', none⟩
    else
      match st.pidfile num.toNat with
      | none => .ok ⟨st', none⟩
      | some content =>
        match pyIntChars? (pyStrip content).data with
        | none => .error "ValueError: invalid literal for int"
        | some pid =>
          if 0 < pid then
            if st.alive pid then .ok ⟨st', some pid⟩
            else .error "ProcessLookupError"
          else .error "AssertionError: pid > 0"

/-! ## ResourceDescriptorBuilder (`start_container`)

`start_container` assembles the `systemd-nspawn` command line: a fixed
prefix, then one directive per enabled capability.  All host probes
(`os.path.exists`, environment variables, `ip link show`) are inputs via a
`Host` record; `assert` failures and uncaught exceptions are `Except.error`. -/

/-- One interface from `ip -o -j link show`: its name, flag list, and
whether the JSON object carries a `link_netnsid` key. -/
structure NetIf where
  ifname : String
  flags : List String
  hasLinkNetnsid : Bool
deriving Repr, DecidableEq

/-- Probed host state consumed by `start_container`: which paths exist, the
`DISPLAY`/`DBUS_SESSION_BUS_ADDRESS` environment values, the invoking uid,
the host interfaces, the entries of `/dev/v4l/by-id` (name and link target
for symlinks), the occupied X display numbers, and the last SHA-1 byte of
the container name (external `hashlib`). -/
structure Host where
  pathExists : String → Bool
  display : Option String
  dbusAddr : Option String
  uid : ℕ
  netifs : List NetIf
  v4lById : List (String × Option String)
  xephyrOccupied : Finset ℕ
  nameHashByte : ℕ

/-- The bind directives: for each requested bind name, look it up in `BINDS`
(a missing name would be a Python `KeyError`) and emit `--bind=` or
`--bind-ro=` with the `~`-expanded path. -/
def bindDirectives (config : ContainerConfig) : Except String (List String) :=
  config.bind.mapM fun b =>
    match (BINDS.lookup b) with
    | none => .error ("KeyError: " ++ b)
    | some entry =>
      let arg := if entry.ro then "bind-ro" else "bind"
      .ok ("--" ++ arg ++ "=" ++ expanduser config entry.folder)

/-- The display number string for the non-private GUI case:
`os.environ.get("DISPLAY", ":0").split(":")[1].split(".")[0]` (the `[1]`
raises `IndexError` when `DISPLAY` has no `:`). -/
def hostDisplayNum (display : Option String) : Except String String :=
  match (display.getD ":0").splitOn ":" with
  | _ :: second :: _ => .ok (((second.splitOn ".").headD ""))
  | _ => .error "IndexError: list index out of range"

/-- The GUI directives: bind the chosen display socket to the container's
`X0` slot, plus best-effort read-only binds of existing theme directories.
For `gui-private` the number comes from the Xephyr allocation, otherwise
from `DISPLAY`. -/
def guiDirectives (config : ContainerConfig) (host : Host) :
    Except String (List String) := do
  let num : String ←
    if config.guiPrivate then
      pure (toString (start_xephyr_num host.nameHashByte host.xephyrOccupied))
    else
      hostDisplayNum host.display
  let themeBinds :=
    (["/usr/share/themes", "~/.themes"].map (expanduser config)).filterMap
      fun p => if host.pathExists p then some ("--bind-ro=" ++ p) else none
  return ("--bind=/tmp/.X11-unix/X" ++ num ++ ":/tmp/.X11-unix/X0") :: themeBinds

/-- The mesa directives: bind whichever of the fixed device nodes exist. -/
def mesaDirectives (host : Host) : List String :=
  (["dri", "shm", "nvidia0", "nvidiactl", "nvidia-modeset"].map
    (fun name => "/dev/" ++ name)).filterMap
    fun d => if host.pathExists d then some ("--bind=" ++ d) else none

/-- The sound directive: `assert os.path.exists(pulse)` (hard precondition),
then bind the pulse socket directory to the fixed in-container path. -/
def soundDirectives (host : Host) : Except String (List String) :=
  let pulse := "/run/user/" ++ toString host.uid ++ "/pulse"
  if host.pathExists pulse then
    .ok ["--bind=" ++ pulse ++ ":/run/user/host/pulse"]
  else .error "AssertionError: os.path.exists(pulse)"

/-- The network directives: `on` (or a maintenance start) emits nothing,
`off` emits `-p`, `nat` emits `--network-veth`, `separate` emits one
`--network-macvlan` per up, non-loopback interface not already in another
network namespace; any other value fails the final `assert`. -/
def networkDirectives (config : ContainerConfig) (host : Host)
    (for_update : Bool) : Except String (List String) :=
  if for_update ∨ config.network = "on" then .ok []
  else if config.network = "off" then .ok ["-p"]
  else if config.network = "nat" then .ok ["--network-veth"]
  else if config.network = "separate" then
    .ok (host.netifs.filterMap fun netif =>
      if "UP" ∈ netif.flags ∧ "LOOPBACK" ∉ netif.flags ∧ ¬ netif.hasLinkNetnsid
      then some ("--network-macvlan=" ++ netif.ifname)
      else none)
  else .error "AssertionError: config[network] == separate"

/-- `os.path.abspath` restricted to the already-absolute joined paths it is
applied to here: collapse empty, `.` and `..` components (`..` at the root
stays at the root, as `normpath` does). -/
def abspathNorm (p : String) : String :=
  let comps := (p.splitOn "/").filter (fun c => c ≠ "" ∧ c ≠ ".")
  let collapsed :=
    comps.foldl (fun acc c => if c = ".." then acc.dropLast else acc ++ [c]) []
  "/" ++ String.intercalate "/" collapsed

/-- The webcam directives: when `/dev/v4l` exists, bind it and the resolved
concrete target of every symlink under `/dev/v4l/by-id` (a relative link
target is joined to the `by-id` directory and normalized with
`os.path.abspath`, dereferencing the usual `../../videoN` targets). -/
def webcamDirectives (host : Host) : List String :=
  if host.pathExists "/dev/v4l" then
    "--bind=/dev/v4l" ::
      host.v4lById.filterMap fun entry =>
        match entry.2 with
        | none => none
        | some link =>
          let link :=
            if link.startsWith "/" then link
            else abspathNorm ("/dev/v4l/by-id/" ++ link)
          some ("--bind=" ++ link)
  else []

/-- The dbus directive: `DBUS_SESSION_BUS_ADDRESS` must exist (`KeyError`
otherwise) and start with `unix:path=` (`assert`); the path after the first
`=` (which, given the checked prefix, is everything past `unix:path=`) is
bound to the fixed in-container location. -/
def dbusDirectives (host : Host) : Except String (List String) :=
  match host.dbusAddr with
  | none => .error "KeyError: DBUS_SESSION_BUS_ADDRESS"
  | some bus =>
    if bus.startsWith "unix:path=" then
      .ok ["--bind=" ++ bus.drop "unix:path=".length ++ ":/run/user/host/dbus"]
    else .error "AssertionError: bus.startswith(unix:path=)"

/-- All directives `start_container` appends after the fixed
`systemd-nspawn` prefix, in source order: binds, gui, mesa, sound, network,
webcam, dbus, then `nspawn-extra-args`.  A maintenance start
(`for_update=True`) skips everything except the (forced-shared) network
step. -/
def containerDirectives (config : ContainerConfig) (host : Host)
    (for_update : Bool) : Except String (List String) := do
  let binds ← if ¬ for_update then bindDirectives config else pure []
  let gui ← if ¬ for_update ∧ config.gui then guiDirectives config host
            else pure []
  let mesa := if ¬ for_update ∧ config.mesa then mesaDirectives host else []
  let sound ← if ¬ for_update ∧ config.sound then soundDirectives host
              else pure []
  let network ← networkDirectives config host for_update
  let webcam := if ¬ for_update ∧ config.webcam then webcamDirectives host
                else []
  let dbus ← if ¬ for_update ∧ config.dbus then dbusDirectives host
             else pure []
  return binds ++ gui ++ mesa ++ sound ++ network ++ webcam ++ dbus
    ++ config.nspawnExtraArgs

/-- The full `systemd-nspawn` command line of `start_container`: the fixed
prefix followed by the capability directives. -/
def start_container_cmd (config : ContainerConfig) (host : Host)
    (for_update : Bool) : Except String (List String) := do
  let directives ← containerDirectives config host for_update
  return ["systemd-nspawn", "-q", "-b", "-D", config.folder,
          "--notify-ready=yes", "--console=passive"] ++ directives

/-! ## Maintenance updates (`do_apt_stuff`, `++aptupdate` branch) -/

/-- One externally visible action of a maintenance run. -/
inductive AptEffect where
  | startContainer (for_update : Bool)
  | aptUpdate
  | aptUpgrade
  | stopContainer
deriving Repr, DecidableEq

/-- The `++aptupdate` branch of `do_apt_stuff`: refuse (`sys.exit`) when the
container is already observed running, otherwise start it in maintenance
mode, run `apt update` and `apt upgrade` inside, and stop it. -/
def do_apt_update (config : ContainerConfig) (running : Bool) :
    Except String (List AptEffect) :=
  if running then
    .error (config.name ++ " is already running - apt update skipped")
  else
    .ok [.startContainer true, .aptUpdate, .aptUpgrade, .stopContainer]

/-! ## SessionCoordinator (`controlcode`, main path)

After `parse_args` and the apt branch, `controlcode` acquires the shared
claim (`getdb`), ensures the container runs, optionally runs the inner
command, and in a `finally` block attempts the exclusive-lock upgrade and
decides on shutdown.  The outcome of the inner command and of the upgrade
attempt are environment inputs. -/

/-- How the wait for the inner command ended: normal completion with an
exit code, a `KeyboardInterrupt`, or some other exception (in which case
`proc` stays `None` and the exception propagates after the `finally`). -/
inductive CmdOutcome where
  | normal (code : Int)
  | interrupted
  | raised
deriving Repr, DecidableEq

/-- How the coordinator process itself terminates: `sys.exit` with a code
(0 for falling off the end of `controlcode`), or an uncaught exception. -/
inductive ExitKind where
  | code (c : Int)
  | exn
deriving Repr, DecidableEq

/-- Environment of one `controlcode` invocation: whether `is_running` found
the container up on entry, how the inner command wait ended, and whether
the `begin exclusive` upgrade in the `finally` block succeeded. -/
structure ControlEnv where
  runningAtEntry : Bool
  cmdOutcome : CmdOutcome
  upgradeOk : Bool
deriving Repr, DecidableEq

/-- Observable outcome of one `controlcode` invocation on its main path. -/
structure ControlResult where
  startedContainer : Bool
  startedWindowManager : Bool
  ranCmd : Bool
  triedUpgrade : Bool
  stoppedXephyr : Bool
  stoppedContainer : Bool
  runningAtExit : Bool
  exit : ExitKind
deriving Repr, DecidableEq

/-- The main path of `controlcode` (after the apt branch): `getdb` takes
the shared claim; if not running, `start_container` and, for gui-private
with a window manager, launch it; `++start` returns immediately; otherwise
run the inner command (a `KeyboardInterrupt` fakes return code 2); the
`finally` block upgrades the lock and shuts down when the upgrade succeeded
or the directive was `++stop`; finally `sys.exit(proc.returncode)` when a
`proc` exists. -/
def controlcode_main (config : ContainerConfig) (only : Option String)
    (env : ControlEnv) : ControlResult :=
  let started := ! env.runningAtEntry
  let startedWM :=
    started && config.guiPrivate && config.guiPrivateWindowManager != ""
  if only = some "start" then
    { startedContainer := started
      startedWindowManager := startedWM
      ranCmd := false
      triedUpgrade := false
      stoppedXephyr := false
      stoppedContainer := false
      runningAtExit := true
      exit := .code 0 }
  else
    -- `proc` is `None` unless the inner command ran (`not args["only"]`)
    -- and its wait ended without an uncaught exception.
    let proc : Option Int :=
      if only = none then
        match env.cmdOutcome with
        | .normal c => some c
        | .interrupted => some 2
        | .raised => none
      else none
    let shutdown := env.upgradeOk
    let doStop := shutdown || only == some "stop"
    { startedContainer := started
      startedWindowManager := startedWM
      ranCmd := only == none
      triedUpgrade := true
      stoppedXephyr := doStop && config.guiPrivate
      stoppedContainer := doStop
      runningAtExit := ! doStop
      exit :=
        match proc with
        | some c => .code c
        | none =>
          if only = none ∧ env.cmdOutcome = .raised then .exn else .code 0 }

/-! ## SessionLock (`getdb` and the `finally` upgrade)

Modelled from the spec: the SessionLock is backed by an SQLite database
file (`getdb` opens it and runs `begin` plus a read, taking a SHARED lock;
the `finally` block runs `end` then `begin exclusive`).  SQLite itself is
external library code, so its documented lock semantics are modelled as a
transition system: any number of processes may hold the shared claim while
no exclusive claim is held, and the exclusive claim is granted only when
no shared claim and no exclusive claim is outstanding. -/

/-- Lock state for one container name: the set of processes holding a
shared claim, and the process holding the exclusive claim, if any. -/
structure LockState where
  shared : Finset ℕ
  excl : Option ℕ
deriving DecidableEq

/-- The operations on the SessionLock, as a step relation.  `acquireShared`
is `getdb` (blocked while an exclusive claim exists), `releaseShared` is
`end` / connection close, `acquireExclusive` is a *successful*
`begin exclusive` (its guard is SQLite's grant condition), and
`releaseExclusive` ends the exclusive transaction. -/
inductive LockStep : LockState → LockState → Prop where
  | acquireShared (s : LockState) (p : ℕ) (hfree : s.excl = none) :
      LockStep s ⟨insert p s.shared, s.excl⟩
  | releaseShared (s : LockState) (p : ℕ) :
      LockStep s ⟨s.shared.erase p, s.excl⟩
  | acquireExclusive (s : LockState) (p : ℕ) (hnoshared : s.shared = ∅)
      (hfree : s.excl = none) :
      LockStep s ⟨s.shared, some p⟩
  | releaseExclusive (s : LockState) :
      LockStep s ⟨s.shared, none⟩

/-- The lock states reachable from the initial state (backing file exists,
no claims outstanding) by any interleaving of the operations. -/
inductive LockReachable : LockState → Prop where
  | init : LockReachable ⟨∅, none⟩
  | step {s t : LockState} (hs : LockReachable s) (hst : LockStep s t) :
      LockReachable t

/-! # Theorems -/

/-! ## SessionLock mutual exclusion -/

/-- Invariant of the SessionLock: in every reachable state, either no
exclusive claim is held or no shared claim is outstanding. -/
theorem lockReachable_excl_or_no_shared {s : LockState}
    (hs : LockReachable s) : s.excl = none ∨ s.shared = ∅ := by
  induction hs with
  | init => exact Or.inl rfl
  | step hs hst ih =>
    cases hst with
    | acquireShared p hfree => exact Or.inl hfree
    | releaseShared p =>
      rcases ih with h | h
      · exact Or.inl h
      · exact Or.inr (by simp [h])
    | acquireExclusive p hnoshared hfree => exact Or.inr hnoshared
    | releaseExclusive => exact Or.inl rfl

/-- **C3**: the SessionLock never permits an exclusive claim and a shared
claim to be held simultaneously: for every interleaving of acquire-shared,
release-shared, and try-exclusive operations by concurrent processes (every
reachable lock state), no state holds the exclusive claim while a shared
claim is outstanding; try-exclusive's success condition (`acquireExclusive`'s
guard) requires zero outstanding shared claims at that instant. -/
theorem sessionLock_never_shared_and_exclusive (s : LockState)
    (hs : LockReachable s) : ¬ (s.excl ≠ none ∧ s.shared ≠ ∅) := by
  rintro ⟨hexcl, hshared⟩
  rcases lockReachable_excl_or_no_shared hs with h | h
  · exact hexcl h
  · exact hshared h

/-- Witness for C3: the state reached by a session taking and releasing the
shared claim and a last session then winning the exclusive upgrade holds no
shared claim. -/
theorem sessionLock_never_shared_and_exclusive_witness :
    ¬ ((⟨∅, some 7⟩ : LockState).excl ≠ none ∧
        (⟨∅, some 7⟩ : LockState).shared ≠ ∅) := by
  have h1 : LockReachable ⟨∅, none⟩ := .init
  have h2 : LockReachable ⟨insert 3 ∅, none⟩ :=
    h1.step (.acquireShared ⟨∅, none⟩ 3 rfl)
  have h3 : LockReachable ⟨(insert 3 (∅ : Finset ℕ)).erase 3, none⟩ :=
    h2.step (.releaseShared ⟨insert 3 ∅, none⟩ 3)
  have he : (insert 3 (∅ : Finset ℕ)).erase 3 = ∅ := by decide
  rw [he] at h3
  have h4 : LockReachable ⟨∅, some 7⟩ :=
    h3.step (.acquireExclusive ⟨∅, none⟩ 7 rfl rfl)
  exact sessionLock_never_shared_and_exclusive ⟨∅, some 7⟩ h4

/-! ## DisplayBroker allocation -/

/-- The linear probe lands outside the occupied set, never moves below its
starting point, and skips only occupied numbers. -/
theorem probeFree_spec (occupied : Finset ℕ) (num : ℕ) :
    probeFree occupied num ∉ occupied ∧ num ≤ probeFree occupied num ∧
      ∀ m, num ≤ m → m < probeFree occupied num → m ∈ occupied := by
  induction num using probeFree.induct occupied with
  | case1 n h ih =>
    rw [probeFree, if_pos h]
    refine ⟨ih.1, Nat.le_trans (Nat.le_succ n) ih.2.1, ?_⟩
    intro m hm hlt
    rcases Nat.eq_or_lt_of_le hm with rfl | hlt2
    · exact h
    · exact ih.2.2 m hlt2 hlt
  | case2 n h =>
    rw [probeFree, if_neg h]
    exact ⟨h, Nat.le_refl n,
      fun m hm hlt => absurd (Nat.lt_of_le_of_lt hm hlt) (Nat.lt_irrefl n)⟩

/-- **C6**: DisplayBroker allocation is collision-free: for any set of
currently-occupied display numbers, the number chosen by `start_xephyr` is
not in that set; the probe starts at the deterministic candidate
`10 + hashByte % 89` (a pure function of the container name's SHA-1 byte
alone, hence the same for a given name on every run, independent of the
occupied set), stays inside the private range at its start, and probes
linearly upward only over occupied numbers. -/
theorem start_xephyr_allocation_collision_free (hashByte : ℕ)
    (occupied : Finset ℕ) :
    start_xephyr_num hashByte occupied ∉ occupied ∧
      xephyrStartCandidate hashByte ≤ start_xephyr_num hashByte occupied ∧
      (∀ m, xephyrStartCandidate hashByte ≤ m →
        m < start_xephyr_num hashByte occupied → m ∈ occupied) ∧
      10 ≤ xephyrStartCandidate hashByte ∧ xephyrStartCandidate hashByte ≤ 98 := by
  have hspec := probeFree_spec occupied (xephyrStartCandidate hashByte)
  refine ⟨hspec.1, hspec.2.1, hspec.2.2, Nat.le_add_right 10 _, ?_⟩
  have hmod : hashByte % 89 < 89 := Nat.mod_lt _ (by norm_num)
  unfold xephyrStartCandidate
  omega

/-- Witness for C6: with displays 32 and 33 occupied and a hash byte whose
candidate is 32, the chosen number avoids the occupied set. -/
theorem start_xephyr_allocation_collision_free_witness :
    start_xephyr_num 200 {32, 33} ∉ ({32, 33} : Finset ℕ) ∧
      xephyrStartCandidate 200 ≤ start_xephyr_num 200 {32, 33} ∧
      start_xephyr_num 200 {32, 33} = 34 := by
  have h := start_xephyr_allocation_collision_free 200 {32, 33}
  refine ⟨h.1, h.2.1, ?_⟩
  simp [start_xephyr_num, xephyrStartCandidate, probeFree]

/-! ## DisplayBroker teardown -/

/-- Resolving the display number of a state with no symbolic link reports
the display already gone (`-1`), without error. -/
theorem get_xephyr_displaynum_link_none (st : XephyrState)
    (h : st.link = none) : get_xephyr_displaynum st = .ok (-1) := by
  simp [get_xephyr_displaynum, h]

/-- `stop_xephyr` on a state with no symbolic link is a successful no-op
(the lookup reports the display already gone). -/
theorem stop_xephyr_ok_of_link_none (st : XephyrState)
    (h : st.link = none) :
    stop_xephyr st = .ok ⟨⟨none, st.pidfile, st.alive⟩, none⟩ := by
  simp [stop_xephyr, get_xephyr_displaynum_link_none st h]

/-- Any successful `stop_xephyr` call leaves the symbolic link removed. -/
theorem stop_xephyr_clears_link {st : XephyrState} {r : StopXephyrResult}
    (h : stop_xephyr st = .ok r) : r.state.link = none := by
  unfold stop_xephyr at h
  split at h
  · cases h
  · dsimp only at h
    split at h
    · cases h; rfl
    · split at h
      · cases h; rfl
      · split at h
        · cases h
        · split at h
          · split at h
            · cases h; rfl
            · cases h
          · cases h

/-- Counterexample to C7 as stated: teardown of a stale allocation — the
symbolic link and the pid file are still present but the recorded display
server process (pid 123) has already died — raises an uncaught
`ProcessLookupError` from `os.kill` instead of completing without error. -/
theorem stop_xephyr_stale_pid_raises :
    stop_xephyr
        ⟨some "X42", fun n => if n = 42 then some "123" else none,
          fun _ => false⟩ =
      .error "ProcessLookupError" := by
  rfl

/-- **C7 (amended)**: DisplayBroker teardown completes without error, twice
in a row, on every state whose symbolic link target resolves without error
and whose pid files hold well-formed positive pids of still-existing
processes; after no symbolic indirection exists it is an unconditional
no-op (so the second of two consecutive calls always succeeds), and a state
with a resolvable link but no pid file succeeds too.  On a stale
allocation, however — a pid file whose recorded process has died — the
first call raises `ProcessLookupError`, and an unparsable link target or
pid file content raises `ValueError`, so teardown is not error-free on
those states. -/
theorem stop_xephyr_idempotent_on_live_states (st : XephyrState) :
    (∀ (_ : ∃ num : Int, get_xephyr_displaynum st = .ok num)
       (_ : ∀ n s, st.pidfile n = some s →
          ∃ p : Int, pyIntChars? (pyStrip s).data = some p ∧ 0 < p ∧
            st.alive p = true),
        ∃ r : StopXephyrResult, stop_xephyr st = .ok r ∧
          ∃ r2 : StopXephyrResult, stop_xephyr r.state = .ok r2) ∧
    (st.link = none →
        ∃ r : StopXephyrResult, stop_xephyr st = .ok r ∧
          ∃ r2 : StopXephyrResult, stop_xephyr r.state = .ok r2) ∧
    ((∃ num : Int, get_xephyr_displaynum st = .ok num) →
      (∀ n, st.pidfile n = none) →
        ∃ r : StopXephyrResult, stop_xephyr st = .ok r) := by
  refine ⟨?_, ?_, ?_⟩
  · rintro ⟨num, hnum⟩ hpid
    have hok : ∃ r : StopXephyrResult, stop_xephyr st = .ok r := by
      unfold stop_xephyr
      rw [hnum]
      dsimp only
      split
      · exact ⟨_, rfl⟩
      · split
        · exact ⟨_, rfl⟩
        · rename_i content hcontent
          obtain ⟨p, hp1, hp2, hp3⟩ := hpid _ _ hcontent
          rw [hp1]
          simp only [hp2, hp3, if_true, if_pos]
          exact ⟨_, rfl⟩
    obtain ⟨r, hr⟩ := hok
    exact ⟨r, hr, _,
      stop_xephyr_ok_of_link_none r.state (stop_xephyr_clears_link hr)⟩
  · intro h
    refine ⟨_, stop_xephyr_ok_of_link_none st h, _,
      stop_xephyr_ok_of_link_none _ rfl⟩
  · rintro ⟨num, hnum⟩ hnone
    unfold stop_xephyr
    rw [hnum]
    dsimp only
    split
    · exact ⟨_, rfl⟩
    · rw [hnone]
      exact ⟨_, rfl⟩

/-- Witness for C7 (amended): teardown of a live allocation (link at
display 42, every pid file recording the live pid 123) succeeds, and
tearing down again succeeds as well. -/
theorem stop_xephyr_idempotent_on_live_states_witness :
    ∃ r : StopXephyrResult,
      stop_xephyr ⟨some "X42", fun _ => some "123", fun _ => true⟩ = .ok r ∧
        ∃ r2 : StopXephyrResult, stop_xephyr r.state = .ok r2 := by
  refine (stop_xephyr_idempotent_on_live_states
      ⟨some "X42", fun _ => some "123", fun _ => true⟩).1 ⟨42, rfl⟩ ?_
  intro n s hs
  injection hs with hs
  subst hs
  exact ⟨123, rfl, by norm_num, rfl⟩

/-! ## SessionCoordinator exit behaviour -/

/-- **C1**: on every run-command invocation the coordinator's `finally`
block attempts the exclusive-lock upgrade regardless of how the inner
command ended; the container is stopped exactly when the upgrade succeeds,
the private display is stopped exactly when the upgrade succeeds and
`gui-private` is configured, and a stop-only invocation shuts down
regardless of the upgrade outcome. -/
theorem run_always_upgrades_and_shutdown_iff_exclusive
    (config : ContainerConfig) (env : ControlEnv) :
    (controlcode_main config none env).triedUpgrade = true ∧
      (controlcode_main config none env).stoppedContainer = env.upgradeOk ∧
      (controlcode_main config none env).stoppedXephyr =
        (env.upgradeOk && config.guiPrivate) ∧
      (controlcode_main config (some "stop") env).stoppedContainer = true := by
  simp [controlcode_main]

/-- **C2**: when the inner command completes with exit code `c`, the
coordinator's own exit status is `c`; when the wait is interrupted by a
`KeyboardInterrupt`, the exit status is the fixed value 2 and the
cleanup/claim-upgrade path still runs. -/
theorem exit_code_propagation (config : ContainerConfig) (env : ControlEnv)
    (c : Int) :
    (controlcode_main config none { env with cmdOutcome := .normal c }).exit =
        .code c ∧
      (controlcode_main config none { env with cmdOutcome := .interrupted }).exit =
        .code 2 ∧
      (controlcode_main config none
          { env with cmdOutcome := .interrupted }).triedUpgrade = true := by
  simp [controlcode_main]

/-- **C10**: a start-only invocation returns success (exit code 0) right
after the container is ensured running: it never attempts the
exclusive-claim upgrade, stops neither the private display nor the
container, and leaves the container running — for every environment,
including one in which the upgrade would have succeeded (the invocation
held the only shared claim). -/
theorem start_only_returns_without_shutdown (config : ContainerConfig)
    (env : ControlEnv) :
    (controlcode_main config (some "start") env).triedUpgrade = false ∧
      (controlcode_main config (some "start") env).stoppedContainer = false ∧
      (controlcode_main config (some "start") env).stoppedXephyr = false ∧
      (controlcode_main config (some "start") env).runningAtExit = true ∧
      (controlcode_main config (some "start") env).ranCmd = false ∧
      (controlcode_main config (some "start") env).exit = .code 0 := by
  simp [controlcode_main]

/-! ## Maintenance update refusal -/

/-- **C9**: invoking `++aptupdate` while the container is observed running
exits with a descriptive error and performs no effect at all — no start, no
update, no stop; the running container is untouched. -/
theorem apt_update_refused_when_running (config : ContainerConfig) :
    do_apt_update config true =
      .error (config.name ++ " is already running - apt update skipped") := by
  rfl

/-! ## Zero-capability descriptor -/

/-- **C8**: a configuration with every capability toggle disabled (gui,
sound — and likewise mesa, webcam, dbus — all false), shared host
networking (`"on"`), and no requested binds produces an exposure descriptor
with zero directives: the assembled command is exactly the fixed
`systemd-nspawn` start command, for every probed host state. -/
theorem zero_capability_descriptor_is_empty (folder name user wm : String)
    (runCmd : Option String) (host : Host) :
    containerDirectives
        { folder := folder, name := name, gui := false, guiPrivate := false,
          guiPrivateStart := XEPHYR, guiPrivateWindowManager := wm,
          sound := false, mesa := false, dbus := false, network := "on",
          bind := [], run := runCmd, user := user, webcam := false,
          nspawnExtraArgs := [] } host false = .ok [] ∧
      start_container_cmd
        { folder := folder, name := name, gui := false, guiPrivate := false,
          guiPrivateStart := XEPHYR, guiPrivateWindowManager := wm,
          sound := false, mesa := false, dbus := false, network := "on",
          bind := [], run := runCmd, user := user, webcam := false,
          nspawnExtraArgs := [] } host false =
      .ok ["systemd-nspawn", "-q", "-b", "-D", folder, "--notify-ready=yes",
           "--console=passive"] := by
  exact ⟨rfl, rfl⟩

/-! ## gui-private versus shared host networking (C4) -/

/-- Counterexample to C4 as stated: a per-invocation `++network on`
override on a gui-private configuration is *not* rejected — `parse_args`
accepts it, and the resulting in-memory config combines
`gui-private = true` with `network = "on"`; the exposure descriptor is then
built from exactly this config. -/
theorem network_override_on_with_gui_private_not_rejected :
    parse_args
        { folder := "/containers/editor", name := "editor", gui := true,
          guiPrivate := true, guiPrivateStart := XEPHYR,
          guiPrivateWindowManager := "matchbox-window-manager", sound := false,
          mesa := false, dbus := false, network := "nat", bind := [],
          run := none, user := "u", webcam := false, nspawnExtraArgs := [] }
        ["++network", "on", "xeyes"] =
      .ok ({ folder := "/containers/editor", name := "editor", gui := true,
             guiPrivate := true, guiPrivateStart := XEPHYR,
             guiPrivateWindowManager := "matchbox-window-manager",
             sound := false, mesa := false, dbus := false, network := "on",
             bind := [], run := none, user := "u", webcam := false,
             nspawnExtraArgs := [] },
           { ParsedArgs.init with cmd := ["xeyes"] }) := by
  rfl

/-- **C4 (amended)**: a configuration combining `gui-private` with shared
host networking (`"on"`) is rejected as a configuration error at
script-creation time — on both the `create` and `makescript` paths, before
any config (and hence any exposure descriptor) is produced; the
per-invocation `++network` override, however, only validates that its value
is one of the four network tokens and installs `"on"` without any
gui-private check. -/
theorem gui_private_shared_network_rejected_at_creation
    (opts : ScriptOptions) (config : ContainerConfig) (res : ParsedArgs)
    (rest : List String) :
    (opts.guiPrivate = true → opts.network = "on" →
      createConfig opts =
          .error "gui-private requires network setting other than on" ∧
        makescriptConfig opts =
          .error "gui-private requires network setting other than on") ∧
      parseLoop config res ("++network" :: "on" :: rest) =
        parseLoop { config with network := "on" } res rest := by
  constructor
  · intro h1 h2
    constructor <;>
      simp [createConfig, makescriptConfig, mainGuiFixup, h1, h2]
  · rfl

/-- Witness for C4 (amended): a gui-private `makescript` request with
shared host networking is refused on both creation paths. -/
theorem gui_private_shared_network_rejected_at_creation_witness :
    createConfig
        { folder := "/containers/editor", name := "editor", network := "on",
          gui := false, guiPrivate := true,
          guiPrivateWindowManager := "matchbox-window-manager", mesa := false,
          sound := false, webcam := false, dbus := false, bind := [],
          run := none, user := "u" } =
      .error "gui-private requires network setting other than on" ∧
    makescriptConfig
        { folder := "/containers/editor", name := "editor", network := "on",
          gui := false, guiPrivate := true,
          guiPrivateWindowManager := "matchbox-window-manager", mesa := false,
          sound := false, webcam := false, dbus := false, bind := [],
          run := none, user := "u" } =
      .error "gui-private requires network setting other than on" :=
  (gui_private_shared_network_rejected_at_creation
    { folder := "/containers/editor", name := "editor", network := "on",
      gui := false, guiPrivate := true,
      guiPrivateWindowManager := "matchbox-window-manager", mesa := false,
      sound := false, webcam := false, dbus := false, bind := [],
      run := none, user := "u" }
    { folder := "", name := "", gui := false, guiPrivate := false,
      guiPrivateStart := [], guiPrivateWindowManager := "", sound := false,
      mesa := false, dbus := false, network := "on", bind := [], run := none,
      user := "", webcam := false, nspawnExtraArgs := [] }
    ParsedArgs.init []).1 rfl rfl

/-! ## gui implication (C5) -/

/-- Counterexample to C5 as stated: the `makescript` path accepts
`mesa = true` with `gui = false` and produces a ContainerConfig whose `gui`
toggle is false while `mesa` is true (only `create` performs the
`mesa → gui` adjustment). -/
theorem makescript_mesa_does_not_imply_gui :
    (makescriptConfig
        { folder := "/containers/blender", name := "blender",
          network := "on", gui := false, guiPrivate := false,
          guiPrivateWindowManager := "matchbox-window-manager", mesa := true,
          sound := false, webcam := false, dbus := false, bind := [],
          run := none, user := "u" }).map (fun c => (c.gui, c.mesa)) =
      .ok (false, true) := by
  rfl

/-- **C5 (amended)**: every ContainerConfig produced by the `create` path
has `gui = true` whenever `gui-private` or `mesa` is true; on the
`makescript` path `gui-private` still implies `gui`, but `mesa` does not
(the `mesa → gui` adjustment lives in `create` only). -/
theorem gui_implied_per_creation_path (opts : ScriptOptions)
    (cfg : ContainerConfig) :
    (createConfig opts = .ok cfg →
      (cfg.guiPrivate || cfg.mesa) = true → cfg.gui = true) ∧
    (makescriptConfig opts = .ok cfg →
      cfg.guiPrivate = true → cfg.gui = true) := by
  constructor
  · intro hok himp
    by_cases hrej : opts.network = "on" ∧ opts.guiPrivate
    · simp [createConfig, mainGuiFixup, hrej] at hok
    · simp [createConfig, mainGuiFixup, hrej] at hok
      subst hok
      by_cases hm : opts.mesa
      · simp [genscriptConfig, createMesaFixup, hm]
      · simp [genscriptConfig, createMesaFixup, hm] at himp ⊢
        exact Or.inr himp
  · intro hok hpriv
    by_cases hrej : opts.network = "on" ∧ opts.guiPrivate
    · simp [makescriptConfig, mainGuiFixup, hrej] at hok
    · simp [makescriptConfig, mainGuiFixup, hrej] at hok
      subst hok
      simp [genscriptConfig] at hpriv ⊢
      simp [hpriv]

/-- Witness for C5 (amended): a gui-private `makescript` config comes out
with `gui = true` even though `--gui` was not requested. -/
theorem gui_implied_per_creation_path_witness :
    (genscriptConfig
        { folder := "/containers/editor", name := "editor", network := "nat",
          gui := true, guiPrivate := true,
          guiPrivateWindowManager := "matchbox-window-manager", mesa := false,
          sound := false, webcam := false, dbus := false, bind := [],
          run := none, user := "u" }).gui = true :=
  (gui_implied_per_creation_path
    { folder := "/containers/editor", name := "editor", network := "nat",
      gui := false, guiPrivate := true,
      guiPrivateWindowManager := "matchbox-window-manager", mesa := false,
      sound := false, webcam := false, dbus := false, bind := [],
      run := none, user := "u" }
    (genscriptConfig
      { folder := "/containers/editor", name := "editor", network := "nat",
        gui := true, guiPrivate := true,
        guiPrivateWindowManager := "matchbox-window-manager", mesa := false,
        sound := false, webcam := false, dbus := false, bind := [],
        run := none, user := "u" })).2 rfl rfl

end MakeAppContainer
